import Mathlib

/-!
Shallow embedding of the AKSFlexNode role-assignment retry engine and of the
NPD uninstaller component, together with proofs of the specified properties.

The role-assignment core (error classifier, retry orchestrator, request
construction) is exercised by the tests in `src/unnamed/part_000`; the
orchestrator itself is modelled from the specification, with the concrete
message phrases and error-code strings pinned by those tests.  The NPD
uninstaller is embedded directly from `src/pkg/components/npd/npd_uninstaller.go`.

Machine strings are Lean `String`s; substring matching (Go `strings.Contains`)
is embedded as an executable search over the character lists.  Durations are
modelled in whole seconds as `Nat` (every delay in the schedule is a whole
number of seconds).
-/

namespace AKSFlexNode

/-- Boolean test that `n` is an initial segment of `h` (character lists). -/
def charsLeads : List Char → List Char → Bool
  | [], _ => true
  | _ :: _, [] => false
  | a :: as, b :: bs => a == b && charsLeads as bs

/-- Boolean test that `needle` occurs contiguously inside the haystack. -/
def charsHasSub (needle : List Char) : List Char → Bool
  | [] => needle.isEmpty
  | c :: cs => charsLeads needle (c :: cs) || charsHasSub needle cs

/-- Embedding of Go `strings.Contains(haystack, needle)`. -/
def strContains (haystack needle : String) : Bool :=
  charsHasSub needle.data haystack.data

/-- The four verdicts of the error classifier (spec §4.1). -/
inductive Classification
  | alreadySatisfied
  | retryableNotFound
  | fatal
  | fatalUnclassified
deriving DecidableEq, Repr

/-- Modelled from the spec: the Error Classifier (spec §4.1) is not under
`src/`; per §4.1 it classifies by substring/code matching on the error's
textual representation: the stable code "RoleAssignmentExists" means the
assignment already exists, the stable code "PrincipalNotFound" means the
principal is not yet visible (retryable), an explicit "forbidden"/403 signal
is fatal, and anything else is fatal-unclassified. -/
def classifyError (text : String) : Classification :=
  if strContains text "RoleAssignmentExists" then .alreadySatisfied
  else if strContains text "PrincipalNotFound" then .retryableNotFound
  else if strContains text "403" || strContains text "Forbidden" then .fatal
  else .fatalUnclassified

/-- Errors as the orchestrator's callers see them: the distinguished
cancellation error (Go `context.Canceled`), a remote error carried by its
textual representation, or a wrapping (Go `fmt.Errorf` with `%w`) that adds a
message prefix while preserving the wrapped error for identity checks. -/
inductive Err
  | canceled
  | remote (text : String)
  | wrap (pre : String) (inner : Err)
deriving DecidableEq, Repr

/-- Textual form of an error (Go `err.Error()`); wrapping renders as
"prefix: inner". -/
def Err.message : Err → String
  | .canceled => "context canceled"
  | .remote t => t
  | .wrap p e => p ++ ": " ++ e.message

/-- Embedding of Go `errors.Is(e, target)`: identity at some level of the
unwrap chain. -/
def Err.is : Err → Err → Bool
  | .wrap p inner, target => decide (Err.wrap p inner = target) || Err.is inner target
  | .canceled, target => decide (Err.canceled = target)
  | .remote t, target => decide (Err.remote t = target)

/-- Modelled from the spec: the fixed attempt ceiling of the retry
orchestrator (spec §4.2: "up to a fixed maximum number of attempts (5)"). -/
def maxRetries : Nat := 5

/-- Modelled from the spec: backoff schedule, delay in seconds before attempt
`k` (k = 2..5) is `5s * 2^(k-2)` (spec §4.2). -/
def backoffDelay (k : Nat) : Nat := 5 * 2 ^ (k - 2)

/-- Modelled from the spec: message of the retry-exhaustion failure; it
states the number of attempts made and names identity-replication delay as
the cause, with the exact phrases pinned by the test
`TestAssignRole_PrincipalNotFound_ExhaustsRetries` in `src/unnamed/part_000`
("failed to assign role after", "Azure AD replication delay"). -/
def exhaustedMessage : String :=
  "failed to assign role after " ++ toString maxRetries ++
    " attempts, this may be due to Azure AD replication delay"

/-- Modelled from the spec: message prefix wrapping a fatal (non-retryable)
error (spec §4.2 step c: "return Failure immediately, wrapping the original
error"). -/
def fatalMessage : String := "failed to create role assignment"

/-- The request parameters sent to the authorization client's create call
(spec §3/§6: principal id, role id, principal type). -/
structure RoleAssignmentProperties where
  principalID : String
  roleDefinitionID : String
  principalType : String
deriving DecidableEq, Repr

/-- Modelled from the spec: request construction (spec §4.2 step 1) sets the
principal-type field to the fixed value "ServicePrincipal". -/
def buildRoleAssignmentParams (principalID roleID : String) :
    RoleAssignmentProperties :=
  { principalID := principalID
    roleDefinitionID := roleID
    principalType := "ServicePrincipal" }

/-- Observable outcome of one `assignRole` call: how many create calls were
issued, the backoff waits actually slept (in seconds, in order), the request
parameters sent on each call, and the returned error (`none` = success). -/
structure AssignResult where
  calls : Nat
  waits : List Nat
  requests : List RoleAssignmentProperties
  err : Option Err
deriving DecidableEq, Repr

/-- Modelled from the spec: the retry orchestrator loop (spec §4.2 step 2).
The client is modelled as a map from the 1-based attempt number to the create
call's result (`none` = success, `some text` = error with that textual form),
mirroring the mock client of `src/unnamed/part_000`; `cancel k = true` means
the context's cancellation fires during the backoff wait that follows attempt
`k`.  `fuel` is the number of attempts still allowed; the `fuel = 0` branch is
the defensive fallback of spec §4.2 step 3. -/
def assignRoleLoop (client : Nat → Option String) (cancel : Nat → Bool)
    (params : RoleAssignmentProperties) (attempt fuel : Nat) : AssignResult :=
  match fuel with
  | 0 => { calls := 0, waits := [], requests := [],
           err := some (.remote "retries exhausted") }
  | f + 1 =>
    match client attempt with
    | none => { calls := 1, waits := [], requests := [params], err := none }
    | some text =>
      match classifyError text with
      | .alreadySatisfied =>
        { calls := 1, waits := [], requests := [params], err := none }
      | .fatal =>
        { calls := 1, waits := [], requests := [params],
          err := some (.wrap fatalMessage (.remote text)) }
      | .fatalUnclassified =>
        { calls := 1, waits := [], requests := [params],
          err := some (.wrap fatalMessage (.remote text)) }
      | .retryableNotFound =>
        if f = 0 then
          { calls := 1, waits := [], requests := [params],
            err := some (.wrap exhaustedMessage (.remote text)) }
        else if cancel attempt then
          { calls := 1, waits := [], requests := [params],
            err := some Err.canceled }
        else
          let rest := assignRoleLoop client cancel params (attempt + 1) f
          { calls := rest.calls + 1
            waits := backoffDelay (attempt + 1) :: rest.waits
            requests := params :: rest.requests
            err := rest.err }

/-- Modelled from the spec: the caller-facing operation
`assignRole(ctx, principalID, roleID, scope, roleDisplayName)` (spec §4.2):
build the request parameters once, then run the attempt loop from attempt 1
with the fixed ceiling.  `scope` and `displayName` do not influence the
request's principal-type field or the control flow (the scope is passed
through to the client and the display name is used only in diagnostics). -/
def assignRole (client : Nat → Option String) (cancel : Nat → Bool)
    (principalID roleID scope displayName : String) : AssignResult :=
  assignRoleLoop client cancel (buildRoleAssignmentParams principalID roleID)
    1 maxRetries

/-- Error text of the mock "PrincipalNotFound" response used by the tests in
`src/unnamed/part_000`. -/
def sampleNotFoundText : String :=
  "RESPONSE 400: 400 Bad Request\nERROR CODE: PrincipalNotFound\nPrincipal does not exist"

/-- Error text of the mock "RoleAssignmentExists" response used by the tests
in `src/unnamed/part_000`. -/
def sampleExistsText : String :=
  "RESPONSE 400: 400 Bad Request\nERROR CODE: RoleAssignmentExists\nRole assignment already exists"

/-- Error text of the permission-denied error used by
`TestAssignRole_ForbiddenError_NoRetry` in `src/unnamed/part_000`. -/
def sampleForbiddenText : String := "403 Forbidden: insufficient permissions"

/-- Error text of the unclassified error used by
`TestAssignRole_GenericError_NoRetry` in `src/unnamed/part_000`. -/
def sampleGenericText : String := "some other Azure error"

/-- Log levels of the logrus logger used by the NPD uninstaller (only the
levels this component emits, plus `error` so that "debug" is a real
distinction). -/
inductive LogLevel
  | info
  | debug
  | error
deriving DecidableEq, Repr

/-- Modelled from the spec: the constant path of the NPD binary; the constant
is declared elsewhere in the `npd` package (not under `src/`), and no claim
depends on its value, only on its being a fixed path. -/
def npdBinaryPath : String := "/usr/local/bin/node-problem-detector"

/-- Modelled from the spec: the constant path of the NPD config file; the
constant is declared elsewhere in the `npd` package (not under `src/`), and no
claim depends on its value, only on its being a fixed path. -/
def npdConfigPath : String := "/etc/node-problem-detector/config.json"

/-- Modelled from the spec: `utils.FileExists` (not under `src/`) is a simple
existence check, embedded as looking up the path in an abstract filesystem
state `fs : String → Bool`. -/
def FileExists (fs : String → Bool) (path : String) : Bool := fs path

/-- Observable outcome of one `UnInstaller.Execute` call: the log entries it
emitted, in order, and the error it returned (`none` = nil). -/
structure UnInstallerRun where
  logs : List (LogLevel × String)
  err : Option String
deriving DecidableEq, Repr

namespace UnInstaller

/-- Embedding of `UnInstaller.Execute` from
`src/pkg/components/npd/npd_uninstaller.go`: log at info, remove the binary
(logging a failure at debug), remove the config (logging a failure at debug),
log at info, return nil.  `runCleanup` gives the result of
`utils.RunCleanupCommand` for each path (`none` = success, `some msg` =
failure with that message). -/
def Execute (runCleanup : String → Option String) : UnInstallerRun :=
  let logs0 : List (LogLevel × String) :=
    [(LogLevel.info, "Uninstalling Node Problem Detector")]
  let logs1 :=
    match runCleanup npdBinaryPath with
    | some e => logs0 ++
        [(LogLevel.debug,
          "Failed to remove binary " ++ npdBinaryPath ++ ": " ++ e ++
            " (may not exist)")]
    | none => logs0
  let logs2 :=
    match runCleanup npdConfigPath with
    | some e => logs1 ++
        [(LogLevel.debug,
          "Failed to remove config " ++ npdConfigPath ++ ": " ++ e ++
            " (may not exist)")]
    | none => logs1
  { logs := logs2 ++
      [(LogLevel.info, "Node Problem Detector uninstalled successfully")]
    err := none }

/-- Embedding of `UnInstaller.IsCompleted` from
`src/pkg/components/npd/npd_uninstaller.go`: true when neither the binary nor
the config file exists, else false. -/
def IsCompleted (fs : String → Bool) : Bool :=
  if !FileExists fs npdBinaryPath && !FileExists fs npdConfigPath then true
  else false

end UnInstaller

/-! ### Substring lemmas -/

theorem charsLeads_self (l : List Char) : charsLeads l l = true := by
  induction l with
  | nil => rfl
  | cons a as ih => simp [charsLeads, ih]

theorem charsLeads_append (n h t : List Char) (hl : charsLeads n h = true) :
    charsLeads n (h ++ t) = true := by
  induction n generalizing h with
  | nil => rfl
  | cons a as ih =>
    cases h with
    | nil => simp [charsLeads] at hl
    | cons b bs =>
      simp [charsLeads] at hl ⊢
      exact ⟨hl.1, ih bs hl.2⟩

theorem charsHasSub_self (l : List Char) : charsHasSub l l = true := by
  cases l with
  | nil => rfl
  | cons a as => simp [charsHasSub, charsLeads_self]

theorem charsHasSub_extend (n h t : List Char) (hs : charsHasSub n h = true) :
    charsHasSub n (h ++ t) = true := by
  induction h with
  | nil =>
    have hn : n = [] := by
      cases n with
      | nil => rfl
      | cons a as => simp [charsHasSub, List.isEmpty] at hs
    subst hn
    cases t with
    | nil => rfl
    | cons c cs => simp [charsHasSub, charsLeads]
  | cons c cs ih =>
    simp only [charsHasSub, Bool.or_eq_true] at hs
    rcases hs with hl | hsub
    · have := charsLeads_append n (c :: cs) t hl
      simp only [List.cons_append, charsHasSub, Bool.or_eq_true]
      exact Or.inl (by simpa using this)
    · simp only [List.cons_append, charsHasSub, Bool.or_eq_true]
      exact Or.inr (ih hsub)

theorem charsHasSub_prepend (n t p : List Char) (hs : charsHasSub n t = true) :
    charsHasSub n (p ++ t) = true := by
  induction p with
  | nil => simpa using hs
  | cons a ps ih =>
    simp only [List.cons_append, charsHasSub, Bool.or_eq_true]
    exact Or.inr ih

theorem strContains_append_right (p t : String) :
    strContains (p ++ t) t = true := by
  show charsHasSub t.data (p ++ t).data = true
  rw [String.data_append]
  exact charsHasSub_prepend t.data t.data p.data (charsHasSub_self t.data)

theorem strContains_extend (p n t : String) (h : strContains p n = true) :
    strContains (p ++ t) n = true := by
  show charsHasSub n.data (p ++ t).data = true
  rw [String.data_append]
  exact charsHasSub_extend n.data p.data t.data h

/-! ### Helper lemma for request parameters -/

theorem assignRoleLoop_requests_eq_params (client : Nat → Option String)
    (cancel : Nat → Bool) (params : RoleAssignmentProperties) :
    ∀ fuel attempt r,
      r ∈ (assignRoleLoop client cancel params attempt fuel).requests →
        r = params := by
  intro fuel
  induction fuel with
  | zero =>
    intro attempt r hr
    simp [assignRoleLoop] at hr
  | succ f ih =>
    intro attempt r hr
    rw [assignRoleLoop] at hr
    split at hr
    · simpa using hr
    · split at hr
      · simpa using hr
      · simpa using hr
      · simpa using hr
      · split at hr
        · simpa using hr
        · split at hr
          · simpa using hr
          · simp only [List.mem_cons] at hr
            rcases hr with hr | hr
            · exact hr
            · exact ih (attempt + 1) r hr

/-! ### Claim theorems -/

/-- C1: if the client's create call returns an error classified
RetryableNotFound on every attempt and the context is never cancelled, then
exactly 5 create calls are made and `assignRole` returns a failure wrapping
the last underlying error, whose message contains the attempt-count phrase
"failed to assign role after 5 attempts" and the identity-propagation phrase
"Azure AD replication delay". -/
theorem assignRole_retryableAll_exhausts (client : Nat → Option String)
    (cancel : Nat → Bool) (pid rid sc dn : String)
    (hretry : ∀ k, 1 ≤ k → k ≤ 5 → ∃ t, client k = some t ∧
      classifyError t = Classification.retryableNotFound)
    (hnc : ∀ k, cancel k = false) :
    (assignRole client cancel pid rid sc dn).calls = 5 ∧
    ∃ t, client 5 = some t ∧
      (assignRole client cancel pid rid sc dn).err =
        some (Err.wrap exhaustedMessage (Err.remote t)) ∧
      strContains (Err.wrap exhaustedMessage (Err.remote t)).message
        "failed to assign role after 5 attempts" = true ∧
      strContains (Err.wrap exhaustedMessage (Err.remote t)).message
        "Azure AD replication delay" = true := by
  obtain ⟨t1, e1, c1⟩ := hretry 1 (by norm_num) (by norm_num)
  obtain ⟨t2, e2, c2⟩ := hretry 2 (by norm_num) (by norm_num)
  obtain ⟨t3, e3, c3⟩ := hretry 3 (by norm_num) (by norm_num)
  obtain ⟨t4, e4, c4⟩ := hretry 4 (by norm_num) (by norm_num)
  obtain ⟨t5, e5, c5⟩ := hretry 5 (by norm_num) (by norm_num)
  refine ⟨?_, t5, e5, ?_, ?_, ?_⟩
  · simp [assignRole, assignRoleLoop, maxRetries, e1, c1, e2, c2, e3, c3,
      e4, c4, e5, c5, hnc]
  · simp [assignRole, assignRoleLoop, maxRetries, e1, c1, e2, c2, e3, c3,
      e4, c4, e5, c5, hnc]
  · show strContains ((exhaustedMessage ++ ": ") ++ t5)
      "failed to assign role after 5 attempts" = true
    exact strContains_extend _ _ _ (strContains_extend _ _ _ (by decide))
  · show strContains ((exhaustedMessage ++ ": ") ++ t5)
      "Azure AD replication delay" = true
    exact strContains_extend _ _ _ (strContains_extend _ _ _ (by decide))

/-- C1 witness: with the mock client that always returns the
"PrincipalNotFound" error and a context that is never cancelled. -/
theorem assignRole_retryableAll_exhausts_witness :
    (assignRole (fun _ => some sampleNotFoundText) (fun _ => false)
        "p" "r" "s" "d").calls = 5 ∧
    ∃ t, some sampleNotFoundText = some t ∧
      (assignRole (fun _ => some sampleNotFoundText) (fun _ => false)
          "p" "r" "s" "d").err =
        some (Err.wrap exhaustedMessage (Err.remote t)) ∧
      strContains (Err.wrap exhaustedMessage (Err.remote t)).message
        "failed to assign role after 5 attempts" = true ∧
      strContains (Err.wrap exhaustedMessage (Err.remote t)).message
        "Azure AD replication delay" = true :=
  assignRole_retryableAll_exhausts _ _ _ _ _ _
    (fun _ _ _ => ⟨sampleNotFoundText, rfl, by decide⟩) (fun _ => rfl)

/-- C2: if attempts 1..j all return retryable errors and the context's
cancellation fires during the backoff wait after attempt j (having not fired
earlier), then `assignRole` stops with exactly j create calls (no further
call occurs) and the returned failure is identity-equal (`errors.Is`) to the
cancellation error. -/
theorem assignRole_cancelDuringWait (client : Nat → Option String)
    (cancel : Nat → Bool) (pid rid sc dn : String) (j : Nat)
    (hj1 : 1 ≤ j) (hj4 : j ≤ 4)
    (hretry : ∀ k, 1 ≤ k → k ≤ j → ∃ t, client k = some t ∧
      classifyError t = Classification.retryableNotFound)
    (hcan : cancel j = true) (hbefore : ∀ k, k < j → cancel k = false) :
    (assignRole client cancel pid rid sc dn).calls = j ∧
    ∃ e, (assignRole client cancel pid rid sc dn).err = some e ∧
      Err.is e Err.canceled = true := by
  refine ⟨?_, Err.canceled, ?_, by decide⟩ <;>
  · interval_cases j
    · obtain ⟨t1, e1, c1⟩ := hretry 1 (by norm_num) (by norm_num)
      simp [assignRole, assignRoleLoop, maxRetries, e1, c1, hcan]
    · obtain ⟨t1, e1, c1⟩ := hretry 1 (by norm_num) (by norm_num)
      obtain ⟨t2, e2, c2⟩ := hretry 2 (by norm_num) (by norm_num)
      simp [assignRole, assignRoleLoop, maxRetries, e1, c1, e2, c2, hcan,
        hbefore 1 (by norm_num)]
    · obtain ⟨t1, e1, c1⟩ := hretry 1 (by norm_num) (by norm_num)
      obtain ⟨t2, e2, c2⟩ := hretry 2 (by norm_num) (by norm_num)
      obtain ⟨t3, e3, c3⟩ := hretry 3 (by norm_num) (by norm_num)
      simp [assignRole, assignRoleLoop, maxRetries, e1, c1, e2, c2, e3, c3,
        hcan, hbefore 1 (by norm_num), hbefore 2 (by norm_num)]
    · obtain ⟨t1, e1, c1⟩ := hretry 1 (by norm_num) (by norm_num)
      obtain ⟨t2, e2, c2⟩ := hretry 2 (by norm_num) (by norm_num)
      obtain ⟨t3, e3, c3⟩ := hretry 3 (by norm_num) (by norm_num)
      obtain ⟨t4, e4, c4⟩ := hretry 4 (by norm_num) (by norm_num)
      simp [assignRole, assignRoleLoop, maxRetries, e1, c1, e2, c2, e3, c3,
        e4, c4, hcan, hbefore 1 (by norm_num), hbefore 2 (by norm_num),
        hbefore 3 (by norm_num)]

/-- C2 witness: cancellation fires during the first backoff wait. -/
theorem assignRole_cancelDuringWait_witness :
    (assignRole (fun _ => some sampleNotFoundText)
        (fun k => decide (1 ≤ k)) "p" "r" "s" "d").calls = 1 ∧
    ∃ e, (assignRole (fun _ => some sampleNotFoundText)
        (fun k => decide (1 ≤ k)) "p" "r" "s" "d").err = some e ∧
      Err.is e Err.canceled = true :=
  assignRole_cancelDuringWait _ _ _ _ _ _ 1 (by norm_num) (by norm_num)
    (fun _ _ _ => ⟨sampleNotFoundText, rfl, by decide⟩) rfl
    (fun k hk => by simp [Nat.lt_one_iff.mp hk])

/-- C3: if the first create call returns an error carrying the
"RoleAssignmentExists" code, exactly one create call is made and `assignRole`
returns success (nil error): the already-exists error is absorbed. -/
theorem assignRole_alreadyExists_success (client : Nat → Option String)
    (cancel : Nat → Bool) (pid rid sc dn : String) (t : String)
    (h1 : client 1 = some t)
    (hcode : strContains t "RoleAssignmentExists" = true) :
    (assignRole client cancel pid rid sc dn).calls = 1 ∧
    (assignRole client cancel pid rid sc dn).err = none := by
  have hc : classifyError t = Classification.alreadySatisfied := by
    simp [classifyError, hcode]
  simp [assignRole, assignRoleLoop, maxRetries, h1, hc]

/-- C3 witness: with the mock "RoleAssignmentExists" error. -/
theorem assignRole_alreadyExists_success_witness :
    (assignRole (fun _ => some sampleExistsText) (fun _ => false)
        "p" "r" "s" "d").calls = 1 ∧
    (assignRole (fun _ => some sampleExistsText) (fun _ => false)
        "p" "r" "s" "d").err = none :=
  assignRole_alreadyExists_success _ _ _ _ _ _ sampleExistsText rfl (by decide)

/-- C4: if the first create call returns an error classified Fatal (a
forbidden/403 signal), exactly one create call is made, no backoff wait is
slept, and `assignRole` returns a failure wrapping the original error: the
failure is identity-equal to the original error and its message contains the
original error text. -/
theorem assignRole_forbidden_noRetry (client : Nat → Option String)
    (cancel : Nat → Bool) (pid rid sc dn : String) (t : String)
    (h1 : client 1 = some t)
    (hc : classifyError t = Classification.fatal) :
    (assignRole client cancel pid rid sc dn).calls = 1 ∧
    (assignRole client cancel pid rid sc dn).waits = [] ∧
    (assignRole client cancel pid rid sc dn).err =
      some (Err.wrap fatalMessage (Err.remote t)) ∧
    Err.is (Err.wrap fatalMessage (Err.remote t)) (Err.remote t) = true ∧
    strContains (Err.wrap fatalMessage (Err.remote t)).message t = true := by
  refine ⟨?_, ?_, ?_, ?_, ?_⟩
  · simp [assignRole, assignRoleLoop, maxRetries, h1, hc]
  · simp [assignRole, assignRoleLoop, maxRetries, h1, hc]
  · simp [assignRole, assignRoleLoop, maxRetries, h1, hc]
  · simp [Err.is]
  · show strContains ((fatalMessage ++ ": ") ++ t) t = true
    exact strContains_append_right _ _

/-- C4 witness: with the 403-forbidden error of the tests. -/
theorem assignRole_forbidden_noRetry_witness :
    (assignRole (fun _ => some sampleForbiddenText) (fun _ => false)
        "p" "r" "s" "d").calls = 1 ∧
    (assignRole (fun _ => some sampleForbiddenText) (fun _ => false)
        "p" "r" "s" "d").waits = [] ∧
    (assignRole (fun _ => some sampleForbiddenText) (fun _ => false)
        "p" "r" "s" "d").err =
      some (Err.wrap fatalMessage (Err.remote sampleForbiddenText)) ∧
    Err.is (Err.wrap fatalMessage (Err.remote sampleForbiddenText))
      (Err.remote sampleForbiddenText) = true ∧
    strContains (Err.wrap fatalMessage
      (Err.remote sampleForbiddenText)).message sampleForbiddenText = true :=
  assignRole_forbidden_noRetry _ _ _ _ _ _ sampleForbiddenText rfl (by decide)

/-- C5: if the first create call returns an error matching none of the known
codes (classified FatalUnclassified), exactly one create call is made, no
backoff wait is slept, and `assignRole` returns a failure immediately,
wrapping the original error. -/
theorem assignRole_unclassified_noRetry (client : Nat → Option String)
    (cancel : Nat → Bool) (pid rid sc dn : String) (t : String)
    (h1 : client 1 = some t)
    (hc : classifyError t = Classification.fatalUnclassified) :
    (assignRole client cancel pid rid sc dn).calls = 1 ∧
    (assignRole client cancel pid rid sc dn).waits = [] ∧
    (assignRole client cancel pid rid sc dn).err =
      some (Err.wrap fatalMessage (Err.remote t)) ∧
    Err.is (Err.wrap fatalMessage (Err.remote t)) (Err.remote t) = true := by
  refine ⟨?_, ?_, ?_, ?_⟩
  · simp [assignRole, assignRoleLoop, maxRetries, h1, hc]
  · simp [assignRole, assignRoleLoop, maxRetries, h1, hc]
  · simp [assignRole, assignRoleLoop, maxRetries, h1, hc]
  · simp [Err.is]

/-- C5 witness: with the generic unclassified error of the tests. -/
theorem assignRole_unclassified_noRetry_witness :
    (assignRole (fun _ => some sampleGenericText) (fun _ => false)
        "p" "r" "s" "d").calls = 1 ∧
    (assignRole (fun _ => some sampleGenericText) (fun _ => false)
        "p" "r" "s" "d").waits = [] ∧
    (assignRole (fun _ => some sampleGenericText) (fun _ => false)
        "p" "r" "s" "d").err =
      some (Err.wrap fatalMessage (Err.remote sampleGenericText)) ∧
    Err.is (Err.wrap fatalMessage (Err.remote sampleGenericText))
      (Err.remote sampleGenericText) = true :=
  assignRole_unclassified_noRetry _ _ _ _ _ _ sampleGenericText rfl (by decide)

/-- C6: for every attempt index k with 2 ≤ k ≤ 5, whenever the run reaches
the wait before attempt k (attempts 1..k-1 retryable, no cancellation), the
backoff delay slept before attempt k is exactly 5 * 2^(k-2) seconds,
whatever retryable error texts the (arbitrary) client produced. -/
theorem assignRole_backoffSchedule (client : Nat → Option String)
    (cancel : Nat → Bool) (pid rid sc dn : String) (k : Nat)
    (hk2 : 2 ≤ k) (hk5 : k ≤ 5)
    (hretry : ∀ j, 1 ≤ j → j < k → ∃ t, client j = some t ∧
      classifyError t = Classification.retryableNotFound)
    (hnc : ∀ j, cancel j = false) :
    (assignRole client cancel pid rid sc dn).waits.get? (k - 2) =
      some (5 * 2 ^ (k - 2)) := by
  interval_cases k
  · obtain ⟨t1, e1, c1⟩ := hretry 1 (by norm_num) (by norm_num)
    simp [assignRole, assignRoleLoop, maxRetries, e1, c1, hnc, backoffDelay]
  · obtain ⟨t1, e1, c1⟩ := hretry 1 (by norm_num) (by norm_num)
    obtain ⟨t2, e2, c2⟩ := hretry 2 (by norm_num) (by norm_num)
    simp [assignRole, assignRoleLoop, maxRetries, e1, c1, e2, c2, hnc,
      backoffDelay]
  · obtain ⟨t1, e1, c1⟩ := hretry 1 (by norm_num) (by norm_num)
    obtain ⟨t2, e2, c2⟩ := hretry 2 (by norm_num) (by norm_num)
    obtain ⟨t3, e3, c3⟩ := hretry 3 (by norm_num) (by norm_num)
    simp [assignRole, assignRoleLoop, maxRetries, e1, c1, e2, c2, e3, c3,
      hnc, backoffDelay]
  · obtain ⟨t1, e1, c1⟩ := hretry 1 (by norm_num) (by norm_num)
    obtain ⟨t2, e2, c2⟩ := hretry 2 (by norm_num) (by norm_num)
    obtain ⟨t3, e3, c3⟩ := hretry 3 (by norm_num) (by norm_num)
    obtain ⟨t4, e4, c4⟩ := hretry 4 (by norm_num) (by norm_num)
    simp [assignRole, assignRoleLoop, maxRetries, e1, c1, e2, c2, e3, c3,
      e4, c4, hnc, backoffDelay]

/-- C6 witness: the wait before attempt 5 is 40 seconds. -/
theorem assignRole_backoffSchedule_witness :
    (assignRole (fun _ => some sampleNotFoundText) (fun _ => false)
        "p" "r" "s" "d").waits.get? 3 = some (5 * 2 ^ 3) :=
  assignRole_backoffSchedule _ _ _ _ _ _ 5 (by norm_num) (by norm_num)
    (fun _ _ _ => ⟨sampleNotFoundText, rfl, by decide⟩) (fun _ => rfl)

/-- C7: every request sent to the client by `assignRole`, on every attempt
and for all inputs, has its principal-type field set to the constant
"ServicePrincipal". -/
theorem assignRole_principalType (client : Nat → Option String)
    (cancel : Nat → Bool) (pid rid sc dn : String)
    (r : RoleAssignmentProperties)
    (hr : r ∈ (assignRole client cancel pid rid sc dn).requests) :
    r.principalType = "ServicePrincipal" := by
  have hp := assignRoleLoop_requests_eq_params client cancel
    (buildRoleAssignmentParams pid rid) maxRetries 1 r hr
  rw [hp]
  rfl

/-- C7 witness: the single request of an immediately-successful run. -/
theorem assignRole_principalType_witness :
    (buildRoleAssignmentParams "p" "r").principalType = "ServicePrincipal" :=
  assignRole_principalType (fun _ => none) (fun _ => false) "p" "r" "s" "d"
    (buildRoleAssignmentParams "p" "r") (by decide)

/-- C8: if the first create call returns no error, exactly one create call
is made and `assignRole` returns success immediately with no backoff wait. -/
theorem assignRole_firstSuccess (client : Nat → Option String)
    (cancel : Nat → Bool) (pid rid sc dn : String)
    (h1 : client 1 = none) :
    (assignRole client cancel pid rid sc dn).calls = 1 ∧
    (assignRole client cancel pid rid sc dn).err = none ∧
    (assignRole client cancel pid rid sc dn).waits = [] := by
  simp [assignRole, assignRoleLoop, maxRetries, h1]

/-- C8 witness: a client that always succeeds. -/
theorem assignRole_firstSuccess_witness :
    (assignRole (fun _ => none) (fun _ => false) "p" "r" "s" "d").calls = 1 ∧
    (assignRole (fun _ => none) (fun _ => false) "p" "r" "s" "d").err = none ∧
    (assignRole (fun _ => none) (fun _ => false) "p" "r" "s" "d").waits = [] :=
  assignRole_firstSuccess _ _ _ _ _ _ rfl

/-- C9: the NPD uninstaller's Execute returns nil for every outcome of the
two cleanup commands, and every log entry whose message reports a removal
failure is emitted at debug level: cleanup failures are swallowed, never
propagated. -/
theorem unInstaller_execute_swallowsErrors (runCleanup : String → Option String) :
    (UnInstaller.Execute runCleanup).err = none ∧
    ∀ l ∈ (UnInstaller.Execute runCleanup).logs,
      strContains l.2 "Failed to remove" = true → l.1 = LogLevel.debug := by
  cases hb : runCleanup npdBinaryPath <;> cases hc : runCleanup npdConfigPath <;>
    refine ⟨by simp [UnInstaller.Execute, hb, hc], ?_⟩ <;>
    · intro l hl
      simp only [UnInstaller.Execute, hb, hc, List.cons_append,
        List.nil_append] at hl
      fin_cases hl <;> first
        | (intro hfail; exact absurd hfail (by decide))
        | (intro _; rfl)

/-- C9 witness: both cleanup commands fail, Execute still returns nil. -/
theorem unInstaller_execute_swallowsErrors_witness :
    (UnInstaller.Execute (fun _ => some "boom")).err = none ∧
    ∀ l ∈ (UnInstaller.Execute (fun _ => some "boom")).logs,
      strContains l.2 "Failed to remove" = true → l.1 = LogLevel.debug :=
  unInstaller_execute_swallowsErrors (fun _ => some "boom")

/-- C10: the NPD uninstaller's IsCompleted returns true exactly when neither
the NPD binary path nor the NPD config path exists, and returns false
whenever either of them exists. -/
theorem unInstaller_isCompleted_iff (fs : String → Bool) :
    (UnInstaller.IsCompleted fs = true ↔
      (fs npdBinaryPath = false ∧ fs npdConfigPath = false)) ∧
    ((fs npdBinaryPath = true ∨ fs npdConfigPath = true) →
      UnInstaller.IsCompleted fs = false) := by
  cases hb : fs npdBinaryPath <;> cases hc : fs npdConfigPath <;>
    simp [UnInstaller.IsCompleted, FileExists, hb, hc]

/-- C10 witness: the empty filesystem, in which uninstallation is complete. -/
theorem unInstaller_isCompleted_iff_witness :
    ((UnInstaller.IsCompleted (fun _ => false) = true ↔
      ((fun _ => false : String → Bool) npdBinaryPath = false ∧
        (fun _ => false : String → Bool) npdConfigPath = false)) ∧
    (((fun _ => false : String → Bool) npdBinaryPath = true ∨
        (fun _ => false : String → Bool) npdConfigPath = true) →
      UnInstaller.IsCompleted (fun _ => false) = false)) :=
  unInstaller_isCompleted_iff (fun _ => false)

end AKSFlexNode
